import Mathlib

/-!
# A shallow embedding of the `libbs` build-system support library

This development models the artifact-resolution and build-and-cache
orchestration code of the `libbs` Go library:

* `ConfigurationResolver.Resolve` — the layered configuration lookup
  (environment variable first, then configured default);
* `ArtifactResolver.Pattern`, `.Resolve`, `.ResolveMany` — glob-based
  artifact resolution (`resolvers.go`);
* `JARInterestingFileDetector.Interesting` — the archive inspection
  predicate (`resolvers.go`);
* `Cache.AsBOMEntry`, `Cache.Name` — provenance entry construction
  (`cache.go`);
* `Application.Contribute` — the top-level build / capture / purge /
  restore orchestration (`application.go`), modelled as a pure function
  over an abstract world whose filesystem and external-process effects
  are recorded in an explicit event trace.

External collaborators (the OS filesystem, `filepath.Glob`, the build
command executor, the zip reader, the properties parser, …) enter the
model as oracle fields of `World` / function parameters; the control
flow of the library itself is translated statement by statement.
-/

namespace Libbs

/-! ## Go standard-library path helpers (`path/filepath`) -/

/-- One step of the `path.Clean` element walk: push a normal component,
let `..` pop the previous component (kept literally when there is
nothing to pop and the path is relative, dropped at the root). The
accumulator holds the already-processed components in reverse order. -/
def cleanStep (rooted : Bool) (acc : List String) (c : String) : List String :=
  if c = ".." then
    match acc with
    | [] => if rooted then [] else [".."]
    | p :: rest => if p = ".." then ".." :: p :: rest else rest
  else c :: acc

/-- Split a character list on a delimiter (the character-level analogue
of `String.splitOn`, written structurally). -/
def splitOnChar (delim : Char) : List Char → List String
  | [] => [""]
  | c :: rest =>
      let r := splitOnChar delim rest
      if c = delim then "" :: r
      else
        match r with
        | [] => [String.mk [c]]
        | w :: ws => String.mk (c :: w.data) :: ws

/-- Model of Go `path.Clean` for slash-separated paths: drop empty and
`.` components, resolve `..`, return `.` for an empty relative result
and `/` for an empty rooted result. -/
def filepathClean (path : String) : String :=
  if path = "" then "."
  else
    let rooted := match path.data with
      | '/' :: _ => true
      | _ => false
    let comps := (splitOnChar '/' path.data).filter fun c => c ≠ "" ∧ c ≠ "."
    let stack := (comps.foldl (cleanStep rooted) []).reverse
    if stack.isEmpty then (if rooted then "/" else ".")
    else (if rooted then "/" else "") ++ String.intercalate "/" stack

/-- Model of Go `filepath.Join` on two elements: empty elements are
skipped, the rest are joined with `/` and cleaned. -/
def filepathJoin (a b : String) : String :=
  if a = "" ∧ b = "" then ""
  else if a = "" then filepathClean b
  else if b = "" then filepathClean a
  else filepathClean (a ++ "/" ++ b)

/-- Model of Go `filepath.Base`: strip trailing slashes, then keep the
last path component (`.` for the empty path, `/` for an all-slash path).
`os.FileInfo.Name()` of a path returns the same base name. -/
def filepathBase (path : String) : String :=
  if path = "" then "."
  else
    let t := String.mk ((path.data.reverse.dropWhile (· = '/')).reverse)
    if t = "" then "/"
    else (splitOnChar '/' t.data).getLastD t

/-- The message of Go's `filepath.ErrBadPattern`. -/
def errBadPatternMsg : String := "syntax error in pattern"

/-- Go `fmt` rendering of a `[]string` with the `%s` verb:
the elements are space-separated inside square brackets. -/
def goFmtStrings (l : List String) : String :=
  "[" ++ String.intercalate " " l ++ "]"

/-! ## Model of `shellwords.Parse` (github.com/mattn/go-shellwords)

The default parser splits a line into whitespace-separated words,
honouring single quotes, double quotes and backslash escapes, and
fails on an unterminated quote or a trailing backslash. -/

/-- Scanner mode of the shell-word splitter: outside any quote, inside
single quotes, inside double quotes, or right after a backslash. -/
inductive SWMode
  | normal
  | singleQ
  | doubleQ
  | escaped
  deriving DecidableEq, Repr

/-- The single-quote character, `'`. -/
def squote : Char := Char.ofNat 39

/-- Word-splitting scanner: `cur` is the word built so far, `inWord`
records whether any character (possibly via empty quotes) has been
committed to `cur`, `acc` the completed words. An unterminated quote or
a trailing backslash is a parse error. -/
def swRun : List Char → SWMode → Bool → String → List String →
    Except String (List String)
  | [], .normal, inWord, cur, acc =>
      .ok (if inWord then acc ++ [cur] else acc)
  | [], .singleQ, _, _, _ => .error "invalid command line string"
  | [], .doubleQ, _, _, _ => .error "invalid command line string"
  | [], .escaped, _, _, _ => .error "invalid command line string"
  | c :: rest, .singleQ, _, cur, acc =>
      if c = squote then swRun rest .normal true cur acc
      else swRun rest .singleQ true (cur.push c) acc
  | c :: rest, .doubleQ, _, cur, acc =>
      if c = '"' then swRun rest .normal true cur acc
      else swRun rest .doubleQ true (cur.push c) acc
  | c :: rest, .escaped, _, cur, acc =>
      swRun rest .normal true (cur.push c) acc
  | c :: rest, .normal, inWord, cur, acc =>
      if c = squote then swRun rest .singleQ true cur acc
      else if c = '"' then swRun rest .doubleQ true cur acc
      else if c = '\\' then swRun rest .escaped inWord cur acc
      else if c = ' ' ∨ c = '\t' then
        if inWord then swRun rest .normal false "" (acc ++ [cur])
        else swRun rest .normal false "" acc
      else swRun rest .normal true (cur.push c) acc

/-- Model of `shellwords.Parse`. -/
def shellwordsParse (s : String) : Except String (List String) :=
  swRun s.data .normal false "" []

/-! ## Model of `libpak.ConfigurationResolver` -/

/-- An environment: the ambient process environment variables. -/
def Env : Type := String → Option String

/-- Model of `libpak.BuildpackConfiguration`: a named configuration with a
default value. -/
structure BuildpackConfiguration where
  name : String
  defaultValue : String
  deriving DecidableEq, Repr

/-- Model of `libpak.ConfigurationResolver`. -/
structure ConfigurationResolver where
  configurations : List BuildpackConfiguration
  deriving DecidableEq, Repr

/-- Model of `libpak.ConfigurationResolver.Resolve`: an environment variable
value is returned with `true`; otherwise the first configuration with
the given name supplies its default with `false`; otherwise the empty
string with `false`. -/
def ConfigurationResolver.Resolve (c : ConfigurationResolver) (env : Env)
    (name : String) : String × Bool :=
  match env name with
  | some v => (v, true)
  | none =>
      match c.configurations.find? (fun cfg => cfg.name == name) with
      | some cfg => (cfg.defaultValue, false)
      | none => ("", false)

/-! ## `ArtifactResolver` (`resolvers.go`) -/

/-- The glob oracle: the result of `filepath.Glob` on a full pattern.
`none` models `filepath.ErrBadPattern` (the only possible error);
Go guarantees the matches are returned in lexical order. -/
structure FS where
  glob : String → Option (List String)

/-- Model of `libbs.ArtifactResolver`. The `InterestingFileDetector` interface
field is modelled as a function from a path to a verdict-or-error. -/
structure ArtifactResolver where
  artifactConfigurationKey : String
  configurationResolver : ConfigurationResolver
  moduleConfigurationKey : String
  interestingFileDetector : String → Except String Bool
  additionalHelpMessage : String

/-- Model of `ArtifactResolver.Pattern`: the artifact key wins when explicitly
configured; otherwise an explicitly configured module key is joined as
a directory in front of the artifact key's default; otherwise the
default is used as is. -/
def ArtifactResolver.Pattern (a : ArtifactResolver) (env : Env) : String :=
  let r := a.configurationResolver.Resolve env a.artifactConfigurationKey
  if r.2 then r.1
  else
    let m := a.configurationResolver.Resolve env a.moduleConfigurationKey
    if m.2 then filepathJoin m.1 r.1
    else r.1

/-- The candidate-filtering loop inside `ArtifactResolver.Resolve`:
each candidate is passed to the detector in order, a detector error
aborts with the wrapped error, verdict-true candidates are collected. -/
def interestingFilter (d : String → Except String Bool) :
    List String → Except String (List String)
  | [] => .ok []
  | c :: rest =>
      match d c with
      | .error e => .error ("unable to investigate " ++ c ++ "\n" ++ e)
      | .ok true => (interestingFilter d rest).map (c :: ·)
      | .ok false => interestingFilter d rest

/-- Model of `ArtifactResolver.Resolve`: glob the pattern under the application
path; a unique match is returned directly; otherwise the matches are
filtered through the detector and a unique interesting match is
returned; otherwise the failure message names the pattern and the
unfiltered candidates (the filtered list is sorted by the source just
before the message is built from the unfiltered list), followed by the
additional help message when one is set. -/
def ArtifactResolver.Resolve (a : ArtifactResolver) (env : Env) (fs : FS)
    (applicationPath : String) : Except String String :=
  match fs.glob (filepathJoin applicationPath (a.Pattern env)) with
  | none =>
      .error ("unable to find files with " ++ a.Pattern env ++ "\n" ++
        errBadPatternMsg)
  | some candidates =>
      match candidates with
      | [c] => .ok c
      | _ =>
          match interestingFilter a.interestingFileDetector candidates with
          | .error e => .error e
          | .ok artifacts =>
              match artifacts with
              | [x] => .ok x
              | _ =>
                  .error
                    (if 0 < a.additionalHelpMessage.length then
                      "unable to find single built artifact in " ++
                        a.Pattern env ++ ", candidates: " ++
                        goFmtStrings candidates ++ ". " ++
                        a.additionalHelpMessage
                    else
                      "unable to find single built artifact in " ++
                        a.Pattern env ++ ", candidates: " ++
                        goFmtStrings candidates)

/-- The token walk inside `ArtifactResolver.ResolveMany`: a glob error
records the token as a bad pattern (`cs` stays as it was, since Go's
`Glob` returns a nil slice with the error), a successful glob appends
its matches to the accumulated candidates. -/
def resolveManyStep (fs : FS) (applicationPath : String)
    (acc : List String × List String) (pattern : String) :
    List String × List String :=
  match fs.glob (filepathJoin applicationPath pattern) with
  | none => (acc.1, acc.2 ++ [pattern])
  | some cs => (acc.1 ++ cs, acc.2)

/-- Model of `ArtifactResolver.ResolveMany`: split the pattern into shell-word
tokens, glob every token, then fail listing all bad tokens if any were
recorded, return the accumulated candidates if non-empty, and otherwise
fail naming the tokens, followed by the additional help message when
one is set. -/
def ArtifactResolver.ResolveMany (a : ArtifactResolver) (env : Env) (fs : FS)
    (applicationPath : String) : Except String (List String) :=
  match shellwordsParse (a.Pattern env) with
  | .error e => .error ("unable to parse shellwords patterns\n" ++ e)
  | .ok patterns =>
      let r := patterns.foldl (resolveManyStep fs applicationPath) ([], [])
      if 0 < r.2.length then
        .error ("unable to proceed due to bad pattern(s):\n" ++
          String.intercalate "\n" r.2)
      else if 0 < r.1.length then .ok r.1
      else
        .error
          (if 0 < a.additionalHelpMessage.length then
            "unable to find any built artifacts for pattern(s):\n" ++
              String.intercalate "\n" patterns ++ ". " ++
              a.additionalHelpMessage
          else
            "unable to find any built artifacts for pattern(s):\n" ++
              String.intercalate "\n" patterns)

/-! ## `JARInterestingFileDetector` (`resolvers.go`)

A zip archive is modelled as its entry list; an entry carries its name,
whether its header marks a directory, and the combined outcome of
opening, reading and properties-decoding its content (the external
`archive/zip` + `magiconair/properties` pipeline), as a flat key/value
list on success. -/

/-- A single zip archive entry. -/
structure ZipEntry where
  name : String
  isDir : Bool
  manifest : Except String (List (String × String))

/-- Model of `properties.Properties.Get`: the first binding of the key. -/
def propGet (props : List (String × String)) (k : String) : Option String :=
  (props.find? (fun p => p.1 == k)).map (·.2)

/-- Model of `JARInterestingFileDetector.entry`: an entry is interesting when it
is the `WEB-INF/` directory entry, or it is `META-INF/MANIFEST.MF` and
its decoded property list has a `Main-Class` key; a failure to read or
decode the manifest is an error. -/
def JARInterestingFileDetector.entry (f : ZipEntry) : Except String Bool :=
  if f.name = "WEB-INF/" ∧ f.isDir then .ok true
  else if f.name = "META-INF/MANIFEST.MF" then
    match f.manifest with
    | .error e => .error e
    | .ok p => .ok (propGet p "Main-Class").isSome
  else .ok false

/-- The entry loop of `JARInterestingFileDetector.Interesting`: the
first interesting entry wins, the first failing entry aborts with the
wrapped error. -/
def JARInterestingFileDetector.scan (path : String) :
    List ZipEntry → Except String Bool
  | [] => .ok false
  | f :: rest =>
      match JARInterestingFileDetector.entry f with
      | .error e =>
          .error ("unable to investigate entry " ++ path ++ "/" ++ f.name ++
            "\n" ++ e)
      | .ok true => .ok true
      | .ok false => JARInterestingFileDetector.scan path rest

/-- Model of `JARInterestingFileDetector.Interesting`: open the path as a zip
archive (`zipOpen` is the `zip.OpenReader` oracle) and scan its
entries. -/
def JARInterestingFileDetector.Interesting
    (zipOpen : String → Except String (List ZipEntry)) (path : String) :
    Except String Bool :=
  match zipOpen path with
  | .error e => .error ("unable to open " ++ path ++ "\n" ++ e)
  | .ok z => JARInterestingFileDetector.scan path z

/-! ## `Cache` (`cache.go`) -/

/-- A metadata value of a BOM entry (`map[string]interface{}`): either
the dependency listing or a plain string. -/
inductive MetaV
  | deps (ds : List String)
  | str (s : String)
  deriving DecidableEq, Repr

/-- Model of `libcnb.BOMEntry`; `launch` is the Go zero value `false` unless the
source sets it. -/
structure BOMEntry where
  name : String
  metadata : List (String × MetaV)
  build : Bool
  launch : Bool
  deriving DecidableEq, Repr

/-- Go map assignment `m[k] = v` on the metadata association list:
replace an existing binding, otherwise append. -/
def metaSet (m : List (String × MetaV)) (k : String) (v : MetaV) :
    List (String × MetaV) :=
  if m.any (fun p => p.1 == k) then
    m.map (fun p => if p.1 == k then (k, v) else p)
  else m ++ [(k, v)]

/-- Model of `libbs.Cache`. -/
structure Cache where
  path : String
  deriving DecidableEq, Repr

/-- Model of `Cache.Name`. -/
def Cache.Name (_ : Cache) : String := "cache"

/-- Model of `Cache.AsBOMEntry`: the dependencies come from the Maven JAR
listing of the cache path (`libjvm.NewMavenJARListing`, an external
oracle); the entry is named `build-dependencies`, carries the
dependency list, and has the build flag set. -/
def Cache.AsBOMEntry (c : Cache)
    (mavenJARListing : String → Except String (List String)) :
    Except String BOMEntry :=
  match mavenJARListing c.path with
  | .error e =>
      .error ("unable to generate dependencies from " ++ c.path ++ "\n" ++ e)
  | .ok d =>
      .ok { name := "build-dependencies"
            metadata := [("dependencies", MetaV.deps d)]
            build := true
            launch := false }

/-! ## `Application.Contribute` (`application.go`)

The orchestration is modelled as a pure function over a `World` that
fixes the outcome of every external effect, and every filesystem or
process action performed is recorded, in program order, in an event
trace. Workspace children are removed by `os.RemoveAll` only in the
purge loop, so `Event.remove` events are exactly the purge steps. -/

/-- The outcome of `os.Stat`: a file or directory, a not-exist error
(`os.IsNotExist`), or another error. -/
inductive StatRes
  | found (isDir : Bool)
  | notExist
  | oserr (e : String)
  deriving DecidableEq, Repr

/-- The error text of the not-exist `os.Stat` error for a path. -/
def statNotExistMsg (p : String) : String :=
  "stat " ++ p ++ ": no such file or directory"

/-- An external action performed by `Application.Contribute`. -/
inductive Event
  | exec
  | statE (p : String)
  | copyFileE (src dst : String)
  | copyDirE (src dst : String)
  | sbomScan
  | readDirE (p : String)
  | remove (p : String)
  | openE (p : String)
  | extractE (p : String)
  deriving DecidableEq, Repr

/-- The abstract world: the environment, the glob oracle, and the
outcome of every external effect `Application.Contribute` can perform.
`execRes = none` means the build command succeeds; `cacheHit = true`
means `libpak.LayerContributor.Contribute` reuses the cached layer and
does not run the supplied callback. -/
structure World where
  cacheHit : Bool
  execRes : Option String
  env : Env
  fs : FS
  stat : String → StatRes
  copyFileRes : String → String → Option String
  copyDirRes : String → String → Option String
  sbomRes : Option String
  mavenJARListing : String → Except String (List String)
  readDirRes : Except String (List String)
  removeRes : String → Option String
  openRes : String → Option String
  extractRes : Option String

/-- A `libcnb.Layer` (only its path is relevant here). -/
structure Layer where
  path : String
  deriving DecidableEq, Repr

/-- Model of `libbs.Application` (the fields the orchestration reads; the
executor, logger and scanner collaborators live in `World`). -/
structure Application where
  applicationPath : String
  artifactResolver : ArtifactResolver
  cache : Cache
  bom : List BOMEntry

/-- The single-artifact branch of the persist phase (`application.go`,
`len(artifacts) == 1`): stat the artifact, copy a directory under its
base name, copy a file as `application.zip`. -/
def persistSingle (w : World) (layerPath artifact : String) :
    Except String Unit × List Event :=
  match w.stat artifact with
  | .found true =>
      let dst := filepathJoin layerPath (filepathBase artifact)
      match w.copyDirRes artifact dst with
      | some e =>
          (.error ("unable to copy the directory\n" ++ e),
           [.statE artifact, .copyDirE artifact dst])
      | none => (.ok (), [.statE artifact, .copyDirE artifact dst])
  | .found false =>
      let file := filepathJoin layerPath "application.zip"
      match w.copyFileRes artifact file with
      | some e =>
          (.error ("unable to copy the file " ++ artifact ++ " to " ++ file ++
             "\n" ++ e),
           [.statE artifact, .copyFileE artifact file])
      | none => (.ok (), [.statE artifact, .copyFileE artifact file])
  | .notExist =>
      (.error ("unable to resolve artifact " ++ artifact ++ "\n" ++
         statNotExistMsg artifact), [.statE artifact])
  | .oserr e =>
      (.error ("unable to resolve artifact " ++ artifact ++ "\n" ++ e),
       [.statE artifact])

/-- One artifact of the multi-artifact branch of the persist phase:
stat it, copy a directory under its base name, copy a file under its
file name (`fileInfo.Name()`, the base name). -/
def persistMultiOne (w : World) (layerPath artifact : String) :
    Except String Unit × List Event :=
  match w.stat artifact with
  | .found true =>
      let dst := filepathJoin layerPath (filepathBase artifact)
      match w.copyDirRes artifact dst with
      | some e =>
          (.error ("unable to copy a directory\n" ++ e),
           [.statE artifact, .copyDirE artifact dst])
      | none => (.ok (), [.statE artifact, .copyDirE artifact dst])
  | .found false =>
      let dst := filepathJoin layerPath (filepathBase artifact)
      match w.copyFileRes artifact dst with
      | some e =>
          (.error ("unable to copy a file " ++ artifact ++ " to " ++ dst ++
             "\n" ++ e),
           [.statE artifact, .copyFileE artifact dst])
      | none => (.ok (), [.statE artifact, .copyFileE artifact dst])
  | .notExist =>
      (.error ("unable to resolve artifact " ++ artifact ++ "\n" ++
         statNotExistMsg artifact), [.statE artifact])
  | .oserr e =>
      (.error ("unable to resolve artifact " ++ artifact ++ "\n" ++ e),
       [.statE artifact])

/-- The multi-artifact loop of the persist phase: artifacts are
persisted in order, the first failure aborts. -/
def persistMulti (w : World) (layerPath : String) :
    List String → Except String Unit × List Event
  | [] => (.ok (), [])
  | a :: rest =>
      match persistMultiOne w layerPath a with
      | (.error e, evs) => (.error e, evs)
      | (.ok _, evs) =>
          let r := persistMulti w layerPath rest
          (r.1, evs ++ r.2)

/-- The persist phase of the layer callback: a unique artifact uses the
single-artifact branch, any other count the loop. -/
def persistArtifacts (w : World) (layerPath : String) (arts : List String) :
    Except String Unit × List Event :=
  match arts with
  | [a] => persistSingle w layerPath a
  | _ => persistMulti w layerPath arts

/-- The callback passed to `LayerContributor.Contribute`: run the
build command, resolve the artifacts with `ResolveMany`, persist them
into the layer path; each failure aborts with its wrapped error. -/
def contributeCallback (w : World) (a : Application) (layer : Layer) :
    Except String Layer × List Event :=
  match w.execRes with
  | some e => (.error ("error running build\n" ++ e), [.exec])
  | none =>
      match a.artifactResolver.ResolveMany w.env w.fs a.applicationPath with
      | .error e => (.error ("unable to resolve artifacts\n" ++ e), [.exec])
      | .ok artifacts =>
          match persistArtifacts w layer.path artifacts with
          | (.error e, evs) => (.error e, .exec :: evs)
          | (.ok _, evs) => (.ok layer, .exec :: evs)

/-- The purge loop: remove each listed child of the application path;
the first failure aborts. -/
def purgeChildren (w : World) (applicationPath : String) :
    List String → Except String Unit × List Event
  | [] => (.ok (), [])
  | c :: rest =>
      let file := filepathJoin applicationPath c
      match w.removeRes file with
      | some e =>
          (.error ("unable to remove " ++ file ++ "\n" ++ e), [.remove file])
      | none =>
          let r := purgeChildren w applicationPath rest
          (r.1, .remove file :: r.2)

/-- The restore phase: when `layer.Path/application.zip` exists it is
opened and extracted into the application path; when it does not exist
the layer path is copied recursively into the application path; any
other stat error is fatal. -/
def restoreArtifacts (w : World) (a : Application) (layer : Layer) :
    Except String Layer × List Event :=
  let file := filepathJoin layer.path "application.zip"
  match w.stat file with
  | .found _ =>
      match w.openRes file with
      | some e =>
          (.error ("unable to open " ++ file ++ "\n" ++ e),
           [.statE file, .openE file])
      | none =>
          match w.extractRes with
          | some e =>
              (.error ("unable to extract " ++ file ++ "\n" ++ e),
               [.statE file, .openE file, .extractE file])
          | none => (.ok layer, [.statE file, .openE file, .extractE file])
  | .notExist =>
      match w.copyDirRes layer.path a.applicationPath with
      | some e =>
          (.error ("unable to restore multiple artifacts\n" ++ e),
           [.statE file, .copyDirE layer.path a.applicationPath])
      | none =>
          (.ok layer, [.statE file, .copyDirE layer.path a.applicationPath])
  | .oserr e =>
      (.error ("unable to restore artifacts\n" ++ e), [.statE file])

/-- The result of a `Contribute` run: the returned layer or error, the
trace of external actions, and the final BOM entry list. -/
structure ContributeOut where
  result : Except String Layer
  events : List Event
  bom : List BOMEntry

/-- Everything after the layer contribution: SBOM scan, BOM entry,
purge, restore (`application.go` after the callback). -/
def contributeAfterLayer (w : World) (a : Application) (layer : Layer)
    (evs0 : List Event) : ContributeOut :=
  match w.sbomRes with
  | some e =>
      ⟨.error ("unable to create Build SBoM \n" ++ e),
       evs0 ++ [.sbomScan], a.bom⟩
  | none =>
      match a.cache.AsBOMEntry w.mavenJARListing with
      | .error e =>
          ⟨.error ("unable to generate build dependencies\n" ++ e),
           evs0 ++ [.sbomScan], a.bom⟩
      | .ok entry =>
          let entry :=
            { entry with
                metadata := metaSet entry.metadata "layer" (.str a.cache.Name) }
          let bom := a.bom ++ [entry]
          match w.readDirRes with
          | .error e =>
              ⟨.error ("unable to list children of " ++ a.applicationPath ++
                 "\n" ++ e),
               evs0 ++ [.sbomScan, .readDirE a.applicationPath], bom⟩
          | .ok cs =>
              match purgeChildren w a.applicationPath cs with
              | (.error e, evsP) =>
                  ⟨.error e,
                   evs0 ++ [.sbomScan, .readDirE a.applicationPath] ++ evsP,
                   bom⟩
              | (.ok _, evsP) =>
                  let r := restoreArtifacts w a layer
                  ⟨r.1,
                   evs0 ++ [.sbomScan, .readDirE a.applicationPath] ++ evsP ++
                     r.2,
                   bom⟩

/-- Model of `Application.Contribute`: contribute the layer (reusing it on a
cache hit, running the callback otherwise, wrapping a callback error),
then scan, record provenance, purge the workspace and restore the
artifacts. -/
def Application.Contribute (w : World) (a : Application) (layer : Layer) :
    ContributeOut :=
  if w.cacheHit then contributeAfterLayer w a layer []
  else
    match contributeCallback w a layer with
    | (.error e, evs0) =>
        ⟨.error ("unable to contribute application layer\n" ++ e), evs0, a.bom⟩
    | (.ok layer2, evs0) => contributeAfterLayer w a layer2 evs0

/-! ## Theorems -/

/-- A candidate on which the detector delivers the verdict `true`. -/
def verdictTrue (d : String → Except String Bool) (c : String) : Bool :=
  match d c with
  | .ok true => true
  | _ => false

theorem interestingFilter_ok (d : String → Except String Bool)
    (cs : List String) (h : ∀ c ∈ cs, ∃ b, d c = .ok b) :
    interestingFilter d cs = .ok (cs.filter (verdictTrue d)) := by
  induction cs with
  | nil => rfl
  | cons c rest ih =>
      obtain ⟨b, hb⟩ := h c (List.mem_cons_self c rest)
      have ih2 := ih fun y hy => h y (List.mem_cons_of_mem c hy)
      cases b with
      | true =>
          simp [interestingFilter, hb, ih2, List.filter_cons, verdictTrue,
            Except.map]
      | false =>
          simp [interestingFilter, hb, ih2, List.filter_cons, verdictTrue]

theorem interestingFilter_error (d : String → Except String Bool)
    (l1 : List String) (c : String) (l2 : List String) (e : String)
    (h1 : ∀ y ∈ l1, ∃ b, d y = .ok b) (hc : d c = .error e) :
    interestingFilter d (l1 ++ c :: l2) =
      .error ("unable to investigate " ++ c ++ "\n" ++ e) := by
  induction l1 with
  | nil => simp [interestingFilter, hc]
  | cons y rest ih =>
      obtain ⟨b, hb⟩ := h1 y (List.mem_cons_self y rest)
      have ih2 := ih fun z hz => h1 z (List.mem_cons_of_mem y hz)
      cases b with
      | true => simp [interestingFilter, hb, ih2, Except.map]
      | false => simp [interestingFilter, hb, ih2]

/-- C6: `Pattern()` resolves the effective glob pattern with a fixed
three-tier precedence: an explicitly configured artifact value is
returned verbatim (whatever the module key holds); otherwise an
explicitly configured module value is joined as a directory prefix onto
the default pattern; otherwise the default pattern is returned
unprefixed. -/
theorem pattern_three_tier_precedence (a : ArtifactResolver) (env : Env) :
    (∀ v, env a.artifactConfigurationKey = some v → a.Pattern env = v)
    ∧ (∀ m, env a.artifactConfigurationKey = none →
        env a.moduleConfigurationKey = some m →
        a.Pattern env =
          filepathJoin m
            (a.configurationResolver.Resolve env a.artifactConfigurationKey).1)
    ∧ (env a.artifactConfigurationKey = none →
        env a.moduleConfigurationKey = none →
        a.Pattern env =
          (a.configurationResolver.Resolve env a.artifactConfigurationKey).1) := by
  refine ⟨fun v hv => ?_, fun m ha hm => ?_, fun ha hm => ?_⟩
  · simp [ArtifactResolver.Pattern, ConfigurationResolver.Resolve, hv]
  · simp only [ArtifactResolver.Pattern, ConfigurationResolver.Resolve, ha, hm]
    cases h : a.configurationResolver.configurations.find?
        (fun cfg => cfg.name == a.artifactConfigurationKey) <;> simp
  · simp only [ArtifactResolver.Pattern, ConfigurationResolver.Resolve, ha, hm]
    cases h : a.configurationResolver.configurations.find?
        (fun cfg => cfg.name == a.artifactConfigurationKey) <;>
      cases h2 : a.configurationResolver.configurations.find?
          (fun cfg => cfg.name == a.moduleConfigurationKey) <;>
      simp

/-- C6 witness: with the artifact key explicitly set the value wins
verbatim even though the module key is also set; with only the module
key set it, prefixes the default; with neither, the default is used. -/
theorem pattern_three_tier_precedence_witness :
    (({ artifactConfigurationKey := "AK"
        configurationResolver := ⟨[⟨"AK", "test-*"⟩]⟩
        moduleConfigurationKey := "MK"
        interestingFileDetector := fun _ => .ok true
        additionalHelpMessage := "" } : ArtifactResolver).Pattern
      (fun k => if k = "AK" then some "another-file"
        else if k = "MK" then some "test-directory" else none)) = "another-file" := by
  exact (pattern_three_tier_precedence _ _).1 "another-file" rfl

/-- C4: when glob expansion yields exactly one candidate, `Resolve`
returns it for every detector, erroring detectors included — the
`InterestingFileDetector` is never consulted. -/
theorem resolve_unique_candidate_detector_independent
    (a : ArtifactResolver) (env : Env) (fs : FS) (root c : String)
    (h : fs.glob (filepathJoin root (a.Pattern env)) = some [c]) :
    ∀ d, ({ a with interestingFileDetector := d } : ArtifactResolver).Resolve
      env fs root = .ok c := by
  intro d
  have hp : ({ a with interestingFileDetector := d } :
      ArtifactResolver).Pattern env = a.Pattern env := rfl
  simp only [ArtifactResolver.Resolve, hp, h]

/-- C4 witness: a single glob match is returned even when the detector
always errors. -/
theorem resolve_unique_candidate_detector_independent_witness :
    ({ artifactConfigurationKey := "AK"
       configurationResolver := ⟨[⟨"AK", "test-*"⟩]⟩
       moduleConfigurationKey := "MK"
       interestingFileDetector := fun _ => .error "detector blew up"
       additionalHelpMessage := "" } : ArtifactResolver).Resolve
      (fun _ => none)
      ⟨fun _ => some ["/workspace/test-file"]⟩
      "/workspace" = .ok "/workspace/test-file" := by
  exact resolve_unique_candidate_detector_independent
    { artifactConfigurationKey := "AK"
      configurationResolver := ⟨[⟨"AK", "test-*"⟩]⟩
      moduleConfigurationKey := "MK"
      interestingFileDetector := fun _ => .ok true
      additionalHelpMessage := "" }
    (fun _ => none)
    ⟨fun _ => some ["/workspace/test-file"]⟩
    "/workspace" "/workspace/test-file" rfl
    (fun _ => .error "detector blew up")

/-- C5: when glob expansion yields a count other than one, `Resolve`
filters through the detector: an error-free run with exactly one
verdict-true candidate returns that candidate, and a detector error on
a candidate (all earlier candidates having been answered without error)
fails with that error. -/
theorem resolve_detector_filtering (a : ArtifactResolver) (env : Env) (fs : FS)
    (root : String) :
    (∀ cs x, fs.glob (filepathJoin root (a.Pattern env)) = some cs →
      cs.length ≠ 1 →
      (∀ c ∈ cs, ∃ b, a.interestingFileDetector c = .ok b) →
      cs.filter (verdictTrue a.interestingFileDetector) = [x] →
      a.Resolve env fs root = .ok x)
    ∧ (∀ l1 c l2 e,
      fs.glob (filepathJoin root (a.Pattern env)) = some (l1 ++ c :: l2) →
      (l1 ++ c :: l2).length ≠ 1 →
      (∀ y ∈ l1, ∃ b, a.interestingFileDetector y = .ok b) →
      a.interestingFileDetector c = .error e →
      a.Resolve env fs root =
        .error ("unable to investigate " ++ c ++ "\n" ++ e)) := by
  constructor
  · intro cs x hg hlen hok hfil
    have hf := interestingFilter_ok a.interestingFileDetector cs hok
    rw [hfil] at hf
    simp only [ArtifactResolver.Resolve, hg]
    rcases cs with _ | ⟨c1, _ | ⟨c2, rest⟩⟩
    · simp at hfil
    · exact absurd rfl hlen
    · simp only [hf]
  · intro l1 c l2 e hg hlen h1 hc
    have herr := interestingFilter_error a.interestingFileDetector l1 c l2 e h1 hc
    simp only [ArtifactResolver.Resolve, hg]
    rcases hl : l1 ++ c :: l2 with _ | ⟨c1, _ | ⟨c2, rest⟩⟩
    · simp at hl
    · rw [hl] at hlen; exact absurd rfl hlen
    · rw [hl] at herr; simp only [herr]

/-- C5 witness: with two matches where the detector marks only the
second interesting, `Resolve` returns the second; with a detector that
errors on the first candidate, `Resolve` surfaces that error. -/
theorem resolve_detector_filtering_witness :
    ({ artifactConfigurationKey := "AK"
       configurationResolver := ⟨[⟨"AK", "test-*"⟩]⟩
       moduleConfigurationKey := "MK"
       interestingFileDetector := fun p =>
         if p = "/w/test-file-2" then .ok true else .ok false
       additionalHelpMessage := "" } : ArtifactResolver).Resolve
      (fun _ => none) ⟨fun _ => some ["/w/test-file-1", "/w/test-file-2"]⟩
      "/w" = .ok "/w/test-file-2"
    ∧ ({ artifactConfigurationKey := "AK"
         configurationResolver := ⟨[⟨"AK", "test-*"⟩]⟩
         moduleConfigurationKey := "MK"
         interestingFileDetector := fun p =>
           if p = "/w/test-file-1" then .error "io failure" else .ok false
         additionalHelpMessage := "" } : ArtifactResolver).Resolve
      (fun _ => none) ⟨fun _ => some ["/w/test-file-1", "/w/test-file-2"]⟩
      "/w" = .error ("unable to investigate " ++ "/w/test-file-1" ++ "\n" ++
        "io failure") := by
  constructor
  · exact (resolve_detector_filtering _ _ _ _).1
      ["/w/test-file-1", "/w/test-file-2"] "/w/test-file-2" rfl (by decide)
      (by intro c hc; fin_cases hc <;> exact ⟨_, rfl⟩) (by rfl)
  · exact (resolve_detector_filtering _ _ _ _).2
      [] "/w/test-file-1" ["/w/test-file-2"] "io failure" rfl (by decide)
      (by intro y hy; simp at hy) rfl

/-- C3: when glob expansion yields a count other than one and detector
filtering completes with a count other than one, `Resolve` fails, and
the message reports the pattern used together with the original,
unfiltered candidate list — which is sorted lexicographically, Go's
`filepath.Glob` returning its matches in lexical order — with the
additional help message appended when it is non-empty. -/
theorem resolve_failure_reports_unfiltered_sorted_candidates
    (a : ArtifactResolver) (env : Env) (fs : FS) (root : String)
    (cs arts : List String)
    (hg : fs.glob (filepathJoin root (a.Pattern env)) = some cs)
    (hsorted : List.Pairwise (fun x y => x ≤ y) cs)
    (hlen : cs.length ≠ 1)
    (hf : interestingFilter a.interestingFileDetector cs = .ok arts)
    (halen : arts.length ≠ 1) :
    a.Resolve env fs root =
      .error
        (if 0 < a.additionalHelpMessage.length then
          "unable to find single built artifact in " ++ a.Pattern env ++
            ", candidates: " ++ goFmtStrings cs ++ ". " ++
            a.additionalHelpMessage
        else
          "unable to find single built artifact in " ++ a.Pattern env ++
            ", candidates: " ++ goFmtStrings cs)
    ∧ List.Pairwise (fun x y => x ≤ y) cs := by
  refine ⟨?_, hsorted⟩
  simp only [ArtifactResolver.Resolve, hg]
  rcases cs with _ | ⟨c1, _ | ⟨c2, rest⟩⟩
  · simp only [hf]
    rcases arts with _ | ⟨x, _ | ⟨y, r⟩⟩
    · rfl
    · exact absurd rfl halen
    · rfl
  · exact absurd rfl hlen
  · simp only [hf]
    rcases arts with _ | ⟨x, _ | ⟨y, r⟩⟩
    · rfl
    · exact absurd rfl halen
    · rfl

/-- C3 witness: two matches both marked interesting yield the failure
message listing the pattern, both (sorted) candidates and the appended
help text. -/
theorem resolve_failure_reports_unfiltered_sorted_candidates_witness :
    ({ artifactConfigurationKey := "AK"
       configurationResolver := ⟨[⟨"AK", "test-*"⟩]⟩
       moduleConfigurationKey := "MK"
       interestingFileDetector := fun _ => .ok true
       additionalHelpMessage := "Some more help." } : ArtifactResolver).Resolve
      (fun _ => none) ⟨fun _ => some ["/w/test-file-1", "/w/test-file-2"]⟩
      "/w" =
      .error
        ("unable to find single built artifact in " ++ "test-*" ++
          ", candidates: " ++ goFmtStrings ["/w/test-file-1", "/w/test-file-2"]
          ++ ". " ++ "Some more help.")
    ∧ List.Pairwise (fun x y => x ≤ y)
        ["/w/test-file-1", "/w/test-file-2"] := by
  have h := resolve_failure_reports_unfiltered_sorted_candidates
    { artifactConfigurationKey := "AK"
      configurationResolver := ⟨[⟨"AK", "test-*"⟩]⟩
      moduleConfigurationKey := "MK"
      interestingFileDetector := fun _ => .ok true
      additionalHelpMessage := "Some more help." }
    (fun _ => none) ⟨fun _ => some ["/w/test-file-1", "/w/test-file-2"]⟩
    "/w" ["/w/test-file-1", "/w/test-file-2"]
    ["/w/test-file-1", "/w/test-file-2"] rfl
    (by simp [List.pairwise_cons, String.le_iff_toList_le]; decide)
    (by decide) rfl (by decide)
  exact h

theorem resolveMany_foldl (fs : FS) (root : String) (toks cs bad : List String) :
    toks.foldl (resolveManyStep fs root) (cs, bad) =
      (cs ++ toks.flatMap (fun t => (fs.glob (filepathJoin root t)).getD []),
       bad ++ toks.filter (fun t => (fs.glob (filepathJoin root t)).isNone)) := by
  induction toks generalizing cs bad with
  | nil => simp
  | cons t rest ih =>
      simp only [List.foldl_cons, resolveManyStep]
      cases hg : fs.glob (filepathJoin root t) with
      | none => rw [ih]; simp [hg]
      | some ms => rw [ih]; simp [hg]

theorem count_flatMap (f : String → List String) (l : List String) (x : String) :
    (l.flatMap f).count x = (l.map (fun t => (f t).count x)).sum := by
  induction l with
  | nil => rfl
  | cons t rest ih => simp [List.flatMap_cons, List.count_append, ih]

/-- C7: with at least one malformed glob token, `ResolveMany` records
every malformed token across the whole token list and fails listing all
of them, returning no paths — the matches of the well-formed tokens are
discarded. -/
theorem resolveMany_lists_all_bad_patterns (a : ArtifactResolver) (env : Env)
    (fs : FS) (root : String) (toks : List String)
    (hp : shellwordsParse (a.Pattern env) = .ok toks)
    (hbad : toks.filter (fun t => (fs.glob (filepathJoin root t)).isNone) ≠ []) :
    a.ResolveMany env fs root =
      .error ("unable to proceed due to bad pattern(s):\n" ++
        String.intercalate "\n"
          (toks.filter (fun t => (fs.glob (filepathJoin root t)).isNone))) := by
  simp only [ArtifactResolver.ResolveMany, hp]
  rw [resolveMany_foldl]
  simp [List.length_pos, hbad]

/-- C7 witness: a two-token pattern whose tokens are both malformed
globs fails listing both, with no paths returned. -/
theorem resolveMany_lists_all_bad_patterns_witness :
    ({ artifactConfigurationKey := "AK"
       configurationResolver := ⟨[⟨"AK", "test-* other-*"⟩]⟩
       moduleConfigurationKey := "MK"
       interestingFileDetector := fun _ => .ok true
       additionalHelpMessage := "" } : ArtifactResolver).ResolveMany
      (fun _ => none) ⟨fun _ => none⟩ "/w" =
      .error ("unable to proceed due to bad pattern(s):\n" ++
        String.intercalate "\n" ["test-*", "other-*"]) := by
  have h := resolveMany_lists_all_bad_patterns
    { artifactConfigurationKey := "AK"
      configurationResolver := ⟨[⟨"AK", "test-* other-*"⟩]⟩
      moduleConfigurationKey := "MK"
      interestingFileDetector := fun _ => .ok true
      additionalHelpMessage := "" }
    (fun _ => none) ⟨fun _ => none⟩ "/w" ["test-*", "other-*"] rfl (by decide)
  simpa using h

/-- C10: with well-formed tokens only, `ResolveMany` returns the
concatenation of each token's matches in token order without
deduplication — the number of occurrences of a path in the result is
the sum of its occurrences per token. -/
theorem resolveMany_concatenates_in_token_order (a : ArtifactResolver)
    (env : Env) (fs : FS) (root : String) (toks : List String)
    (hp : shellwordsParse (a.Pattern env) = .ok toks)
    (hgood : ∀ t ∈ toks, (fs.glob (filepathJoin root t)).isSome)
    (hne : toks.flatMap (fun t => (fs.glob (filepathJoin root t)).getD []) ≠ []) :
    a.ResolveMany env fs root =
      .ok (toks.flatMap (fun t => (fs.glob (filepathJoin root t)).getD []))
    ∧ ∀ x, (toks.flatMap (fun t => (fs.glob (filepathJoin root t)).getD [])).count x
        = (toks.map (fun t => ((fs.glob (filepathJoin root t)).getD []).count x)).sum := by
  refine ⟨?_, fun x => count_flatMap _ toks x⟩
  have hlen : 0 <
      (toks.flatMap fun t => (fs.glob (filepathJoin root t)).getD []).length :=
    List.length_pos.mpr hne
  have hfil : toks.filter (fun t => (fs.glob (filepathJoin root t)).isNone) = [] := by
    rw [List.filter_eq_nil_iff]
    intro t ht
    have := hgood t ht
    simp only [Option.isNone_iff_eq_none]
    intro hnone
    rw [hnone] at this
    simp at this
  simp only [ArtifactResolver.ResolveMany, hp]
  rw [resolveMany_foldl]
  simp only [List.nil_append, hfil, List.length_nil, lt_self_iff_false,
    if_false]
  rw [if_pos hlen]

/-- C10 witness: two tokens with overlapping match sets produce the
concatenation in token order; the path matched by both tokens appears
twice. -/
theorem resolveMany_concatenates_in_token_order_witness :
    ({ artifactConfigurationKey := "AK"
       configurationResolver := ⟨[⟨"AK", "test-* test-file-1"⟩]⟩
       moduleConfigurationKey := "MK"
       interestingFileDetector := fun _ => .ok true
       additionalHelpMessage := "" } : ArtifactResolver).ResolveMany
      (fun _ => none)
      ⟨fun p => if p = "/w/test-*" then some ["/w/test-file-1", "/w/test-file-2"]
        else some ["/w/test-file-1"]⟩
      "/w" = .ok ["/w/test-file-1", "/w/test-file-2", "/w/test-file-1"]
    ∧ List.count "/w/test-file-1"
        ["/w/test-file-1", "/w/test-file-2", "/w/test-file-1"] = 2 := by
  have h := resolveMany_concatenates_in_token_order
    { artifactConfigurationKey := "AK"
      configurationResolver := ⟨[⟨"AK", "test-* test-file-1"⟩]⟩
      moduleConfigurationKey := "MK"
      interestingFileDetector := fun _ => .ok true
      additionalHelpMessage := "" }
    (fun _ => none)
    ⟨fun p => if p = "/w/test-*" then some ["/w/test-file-1", "/w/test-file-2"]
      else some ["/w/test-file-1"]⟩
    "/w" ["test-*", "test-file-1"] rfl (by decide) (by decide)
  refine ⟨?_, by decide⟩
  have h1 := h.1
  rw [h1]
  rfl

/-- C2 (failing input): with the default pattern `test-*` and a root
whose glob finds nothing, `ResolveMany` fails, but its message lists
the patterns — `unable to find any built artifacts for pattern(s):` —
and does not carry the directory-listing diagnostic
`unable to find any built artifacts in test-*, directory contains:`
that the test suite expects as the message's fixed front. -/
theorem resolveMany_zero_matches_failing_input :
    ({ artifactConfigurationKey := "AK"
       configurationResolver := ⟨[⟨"AK", "test-*"⟩]⟩
       moduleConfigurationKey := "MK"
       interestingFileDetector := fun _ => .ok true
       additionalHelpMessage := "" } : ArtifactResolver).ResolveMany
      (fun _ => none) ⟨fun _ => some []⟩ "/workspace" =
      .error ("unable to find any built artifacts for pattern(s):\n" ++ "test-*")
    ∧ ¬ List.IsPrefix
        "unable to find any built artifacts in test-*, directory contains:".data
        ("unable to find any built artifacts for pattern(s):\n" ++ "test-*").data := by
  exact ⟨rfl, by decide⟩

/-- The archive-content condition of the detector: a `WEB-INF/`
directory entry, or a `META-INF/MANIFEST.MF` entry whose decoded
property list has a `Main-Class` key. -/
def zipEntryInteresting (f : ZipEntry) : Prop :=
  (f.name = "WEB-INF/" ∧ f.isDir = true) ∨
  (f.name = "META-INF/MANIFEST.MF" ∧
    ∃ p, f.manifest = .ok p ∧ (propGet p "Main-Class").isSome = true)

theorem entry_ok_true_iff (f : ZipEntry) :
    JARInterestingFileDetector.entry f = .ok true ↔ zipEntryInteresting f := by
  unfold JARInterestingFileDetector.entry zipEntryInteresting
  split_ifs with h1 h2
  · simp [h1]
  · cases hm : f.manifest <;> simp_all
  · simp_all

theorem entry_ok_false_iff (f : ZipEntry)
    (h : ∃ b, JARInterestingFileDetector.entry f = .ok b) :
    JARInterestingFileDetector.entry f = .ok false ↔ ¬ zipEntryInteresting f := by
  obtain ⟨b, hb⟩ := h
  cases b with
  | true =>
      have ht := hb
      rw [entry_ok_true_iff] at ht
      rw [hb]
      simp [ht]
  | false =>
      constructor
      · intro _ hint
        have hx := (entry_ok_true_iff f).mpr hint
        rw [hb] at hx
        exact absurd (Except.ok.inj hx) (by simp)
      · intro _
        exact hb

theorem scan_ok_iff (path : String) (entries : List ZipEntry)
    (h : ∀ f ∈ entries, ∃ b, JARInterestingFileDetector.entry f = .ok b) :
    (JARInterestingFileDetector.scan path entries = .ok true ↔
      ∃ f ∈ entries, JARInterestingFileDetector.entry f = .ok true)
    ∧ (JARInterestingFileDetector.scan path entries = .ok false ↔
      ∀ f ∈ entries, JARInterestingFileDetector.entry f = .ok false) := by
  induction entries with
  | nil => simp [JARInterestingFileDetector.scan]
  | cons f rest ih =>
      obtain ⟨b, hb⟩ := h f (List.mem_cons_self f rest)
      have ih2 := ih fun g hg => h g (List.mem_cons_of_mem f hg)
      cases b with
      | true => simp [JARInterestingFileDetector.scan, hb]
      | false =>
          simp [JARInterestingFileDetector.scan, hb, ih2.1, ih2.2]

theorem scan_error_propagates (path : String) (l1 : List ZipEntry)
    (f : ZipEntry) (l2 : List ZipEntry) (e : String)
    (h1 : ∀ g ∈ l1, JARInterestingFileDetector.entry g = .ok false)
    (hf : JARInterestingFileDetector.entry f = .error e) :
    JARInterestingFileDetector.scan path (l1 ++ f :: l2) =
      .error ("unable to investigate entry " ++ path ++ "/" ++ f.name ++
        "\n" ++ e) := by
  induction l1 with
  | nil => simp [JARInterestingFileDetector.scan, hf]
  | cons g rest ih =>
      have hg := h1 g (List.mem_cons_self g rest)
      have ih2 := ih fun z hz => h1 z (List.mem_cons_of_mem g hz)
      simp [JARInterestingFileDetector.scan, hg, ih2]

/-- C8: opening failures error; for an archive whose entries all
inspect cleanly, the verdict is `true` exactly when some entry is the
`WEB-INF/` directory entry or a `META-INF/MANIFEST.MF` entry whose
property list has a `Main-Class` key, and `false` exactly when no entry
is; an entry failure (with the entries before it quietly uninteresting)
is surfaced as an error, never as a `false` verdict. -/
theorem jar_interesting_detector_spec
    (zipOpen : String → Except String (List ZipEntry)) (path : String) :
    (∀ e, zipOpen path = .error e →
      JARInterestingFileDetector.Interesting zipOpen path =
        .error ("unable to open " ++ path ++ "\n" ++ e))
    ∧ (∀ entries, zipOpen path = .ok entries →
      (∀ f ∈ entries, ∃ b, JARInterestingFileDetector.entry f = .ok b) →
      (JARInterestingFileDetector.Interesting zipOpen path = .ok true ↔
        ∃ f ∈ entries, zipEntryInteresting f)
      ∧ (JARInterestingFileDetector.Interesting zipOpen path = .ok false ↔
        ∀ f ∈ entries, ¬ zipEntryInteresting f))
    ∧ (∀ l1 f l2 e, zipOpen path = .ok (l1 ++ f :: l2) →
      (∀ g ∈ l1, JARInterestingFileDetector.entry g = .ok false) →
      JARInterestingFileDetector.entry f = .error e →
      JARInterestingFileDetector.Interesting zipOpen path =
        .error ("unable to investigate entry " ++ path ++ "/" ++ f.name ++
          "\n" ++ e)) := by
  refine ⟨fun e he => ?_, fun entries hz hok => ?_, fun l1 f l2 e hz h1 hf => ?_⟩
  · simp [JARInterestingFileDetector.Interesting, he]
  · have hs := scan_ok_iff path entries hok
    constructor
    · rw [show JARInterestingFileDetector.Interesting zipOpen path =
          JARInterestingFileDetector.scan path entries by
        simp [JARInterestingFileDetector.Interesting, hz]]
      rw [hs.1]
      constructor
      · rintro ⟨f, hf, ht⟩
        exact ⟨f, hf, (entry_ok_true_iff f).mp ht⟩
      · rintro ⟨f, hf, ht⟩
        exact ⟨f, hf, (entry_ok_true_iff f).mpr ht⟩
    · rw [show JARInterestingFileDetector.Interesting zipOpen path =
          JARInterestingFileDetector.scan path entries by
        simp [JARInterestingFileDetector.Interesting, hz]]
      rw [hs.2]
      constructor
      · intro hall f hf
        exact (entry_ok_false_iff f (hok f hf)).mp (hall f hf)
      · intro hall f hf
        exact (entry_ok_false_iff f (hok f hf)).mpr (hall f hf)
  · have := scan_error_propagates path l1 f l2 e h1 hf
    simp [JARInterestingFileDetector.Interesting, hz, this]

/-- C8 witness: an archive whose manifest decodes with a `Main-Class`
key is judged interesting; an archive whose only entries are an
ordinary file and a library manifest is not; an unreadable manifest
surfaces an error. -/
theorem jar_interesting_detector_spec_witness :
    JARInterestingFileDetector.Interesting
      (fun _ => .ok [⟨"META-INF/MANIFEST.MF", false,
        .ok [("Main-Class", "test.Main")]⟩])
      "stub-executable.jar" = .ok true
    ∧ JARInterestingFileDetector.Interesting
      (fun _ => .ok [⟨"test.txt", false, .error "not read"⟩,
        ⟨"META-INF/MANIFEST.MF", false, .ok [("Build-Jdk", "11")]⟩])
      "stub-application.jar" = .ok false
    ∧ JARInterestingFileDetector.Interesting
      (fun _ => .ok [⟨"META-INF/MANIFEST.MF", false, .error "bad byte"⟩])
      "corrupt.jar" =
      .error ("unable to investigate entry " ++ "corrupt.jar" ++ "/" ++
        "META-INF/MANIFEST.MF" ++ "\n" ++ "bad byte") := by
  refine ⟨?_, ?_, ?_⟩
  · exact ((jar_interesting_detector_spec
      (fun _ => .ok [⟨"META-INF/MANIFEST.MF", false,
        .ok [("Main-Class", "test.Main")]⟩]) "stub-executable.jar").2.1
      [⟨"META-INF/MANIFEST.MF", false, .ok [("Main-Class", "test.Main")]⟩]
      rfl (by rintro f hf; fin_cases hf; exact ⟨true, rfl⟩)).1.mpr
      ⟨_, List.mem_singleton.mpr rfl, Or.inr ⟨rfl, [("Main-Class", "test.Main")],
        rfl, rfl⟩⟩
  · exact ((jar_interesting_detector_spec
      (fun _ => .ok [⟨"test.txt", false, .error "not read"⟩,
        ⟨"META-INF/MANIFEST.MF", false, .ok [("Build-Jdk", "11")]⟩])
      "stub-application.jar").2.1
      [⟨"test.txt", false, .error "not read"⟩,
        ⟨"META-INF/MANIFEST.MF", false, .ok [("Build-Jdk", "11")]⟩]
      rfl (by rintro f hf; fin_cases hf <;> exact ⟨false, rfl⟩)).2.mpr
      (by rintro f hf; fin_cases hf <;> simp [zipEntryInteresting, propGet])
  · exact (jar_interesting_detector_spec
      (fun _ => .ok [⟨"META-INF/MANIFEST.MF", false, .error "bad byte"⟩])
      "corrupt.jar").2.2 [] ⟨"META-INF/MANIFEST.MF", false, .error "bad byte"⟩
      [] "bad byte" rfl (by rintro g ⟨⟩) rfl

theorem persistSingle_no_remove (w : World) (lp art p : String) :
    Event.remove p ∉ (persistSingle w lp art).2 := by
  unfold persistSingle
  cases w.stat art with
  | found d =>
      cases d with
      | false =>
          cases h : w.copyFileRes art (filepathJoin lp "application.zip") <;>
            simp [h]
      | true =>
          cases h : w.copyDirRes art (filepathJoin lp (filepathBase art)) <;>
            simp [h]
  | notExist => simp
  | oserr e => simp

theorem persistMultiOne_no_remove (w : World) (lp art p : String) :
    Event.remove p ∉ (persistMultiOne w lp art).2 := by
  unfold persistMultiOne
  cases w.stat art with
  | found d =>
      cases d with
      | false =>
          cases h : w.copyFileRes art (filepathJoin lp (filepathBase art)) <;>
            simp [h]
      | true =>
          cases h : w.copyDirRes art (filepathJoin lp (filepathBase art)) <;>
            simp [h]
  | notExist => simp
  | oserr e => simp

theorem persistMulti_no_remove (w : World) (lp : String) (arts : List String)
    (p : String) : Event.remove p ∉ (persistMulti w lp arts).2 := by
  induction arts with
  | nil => simp [persistMulti]
  | cons a rest ih =>
      simp only [persistMulti]
      cases hone : persistMultiOne w lp a with
      | mk r evs =>
          have hno := persistMultiOne_no_remove w lp a p
          rw [hone] at hno
          cases r with
          | error e => simpa using hno
          | ok u => simp [List.mem_append, hno, ih]

theorem persistArtifacts_no_remove (w : World) (lp : String)
    (arts : List String) (p : String) :
    Event.remove p ∉ (persistArtifacts w lp arts).2 := by
  rcases arts with _ | ⟨x, _ | ⟨y, rest⟩⟩
  · simp [persistArtifacts, persistMulti]
  · exact persistSingle_no_remove w lp x p
  · exact persistMulti_no_remove w lp (x :: y :: rest) p

theorem contributeCallback_no_remove (w : World) (a : Application)
    (layer : Layer) (p : String) :
    Event.remove p ∉ (contributeCallback w a layer).2 := by
  cases hE : w.execRes with
  | some e => simp [contributeCallback, hE]
  | none =>
      cases hR : a.artifactResolver.ResolveMany w.env w.fs a.applicationPath with
      | error e => simp [contributeCallback, hE, hR]
      | ok arts =>
          have hno := persistArtifacts_no_remove w layer.path arts p
          cases hp : persistArtifacts w layer.path arts with
          | mk r evs =>
              rw [hp] at hno
              cases r <;> simp [contributeCallback, hE, hR, hp, hno]

theorem contributeCallback_failures (w : World) (a : Application)
    (layer : Layer) :
    (∀ e, w.execRes = some e →
      (contributeCallback w a layer).1 = .error ("error running build\n" ++ e))
    ∧ (∀ e, w.execRes = none →
      a.artifactResolver.ResolveMany w.env w.fs a.applicationPath = .error e →
      (contributeCallback w a layer).1 =
        .error ("unable to resolve artifacts\n" ++ e))
    ∧ (∀ arts e, w.execRes = none →
      a.artifactResolver.ResolveMany w.env w.fs a.applicationPath = .ok arts →
      (persistArtifacts w layer.path arts).1 = .error e →
      (contributeCallback w a layer).1 = .error e) := by
  refine ⟨fun e he => ?_, fun e he hr => ?_, fun arts e he hr hp => ?_⟩
  · simp [contributeCallback, he]
  · simp [contributeCallback, he, hr]
  · simp only [contributeCallback, he, hr]
    cases hper : persistArtifacts w layer.path arts with
    | mk r evs =>
        rw [hper] at hp
        cases r with
        | error e2 => simp only at hp; rw [hp]
        | ok u => simp at hp

/-- C1: the workspace-preservation ordering of `Contribute`: a callback
failure (on a cache miss) surfaces as the wrapped error with no child
of the workspace removed; a build-command failure, a `ResolveMany`
failure, or a failure of any copy into the layer path each make the
callback fail; and a removal of a workspace child can occur only on a
cache hit or after the callback — build, resolution and every copy into
the layer — has succeeded. -/
theorem contribute_purge_only_after_capture (w : World) (a : Application)
    (layer : Layer) :
    (∀ e, w.cacheHit = false → (contributeCallback w a layer).1 = .error e →
      (Application.Contribute w a layer).result =
        .error ("unable to contribute application layer\n" ++ e)
      ∧ ∀ p, Event.remove p ∉ (Application.Contribute w a layer).events)
    ∧ (∀ e, w.execRes = some e →
      (contributeCallback w a layer).1 = .error ("error running build\n" ++ e))
    ∧ (∀ e, w.execRes = none →
      a.artifactResolver.ResolveMany w.env w.fs a.applicationPath = .error e →
      (contributeCallback w a layer).1 =
        .error ("unable to resolve artifacts\n" ++ e))
    ∧ (∀ arts e, w.execRes = none →
      a.artifactResolver.ResolveMany w.env w.fs a.applicationPath = .ok arts →
      (persistArtifacts w layer.path arts).1 = .error e →
      (contributeCallback w a layer).1 = .error e)
    ∧ (∀ p, Event.remove p ∈ (Application.Contribute w a layer).events →
      w.cacheHit = true ∨ ∃ l, (contributeCallback w a layer).1 = .ok l) := by
  have hfail := contributeCallback_failures w a layer
  refine ⟨fun e hmiss herr => ?_, hfail.1, hfail.2.1, hfail.2.2, fun p hp => ?_⟩
  · unfold Application.Contribute
    rw [hmiss]
    simp only [Bool.false_eq_true, if_false]
    cases hcb : contributeCallback w a layer with
    | mk r evs =>
        rw [hcb] at herr
        cases r with
        | error e2 =>
            simp only at herr
            cases herr
            refine ⟨rfl, fun q => ?_⟩
            have := contributeCallback_no_remove w a layer q
            rw [hcb] at this
            simpa using this
        | ok l => simp at herr
  · unfold Application.Contribute at hp
    by_cases hhit : w.cacheHit
    · exact Or.inl hhit
    · right
      rw [if_neg hhit] at hp
      cases hcb : contributeCallback w a layer with
      | mk r evs =>
          rw [hcb] at hp
          cases r with
          | error e =>
              exfalso
              have := contributeCallback_no_remove w a layer p
              rw [hcb] at this
              simp only at hp
              exact this hp
          | ok l => exact ⟨l, rfl⟩

/-- C1 witness: with a failing build command on a cache miss,
`Contribute` returns the wrapped build error and the trace contains no
removal of the workspace child `src`. -/
theorem contribute_purge_only_after_capture_witness :
    (Application.Contribute
      { cacheHit := false
        execRes := some "exit status 1"
        env := fun _ => none
        fs := ⟨fun _ => some []⟩
        stat := fun _ => .found false
        copyFileRes := fun _ _ => none
        copyDirRes := fun _ _ => none
        sbomRes := none
        mavenJARListing := fun _ => .ok []
        readDirRes := .ok ["src"]
        removeRes := fun _ => none
        openRes := fun _ => none
        extractRes := none }
      { applicationPath := "/workspace"
        artifactResolver :=
          { artifactConfigurationKey := "AK"
            configurationResolver := ⟨[⟨"AK", "test-*"⟩]⟩
            moduleConfigurationKey := "MK"
            interestingFileDetector := fun _ => .ok true
            additionalHelpMessage := "" }
        cache := ⟨"/cache"⟩
        bom := [] }
      ⟨"/layers/application"⟩).result =
      .error ("unable to contribute application layer\n" ++
        ("error running build\n" ++ "exit status 1"))
    ∧ Event.remove "/workspace/src" ∉
      (Application.Contribute
        { cacheHit := false
          execRes := some "exit status 1"
          env := fun _ => none
          fs := ⟨fun _ => some []⟩
          stat := fun _ => .found false
          copyFileRes := fun _ _ => none
          copyDirRes := fun _ _ => none
          sbomRes := none
          mavenJARListing := fun _ => .ok []
          readDirRes := .ok ["src"]
          removeRes := fun _ => none
          openRes := fun _ => none
          extractRes := none }
        { applicationPath := "/workspace"
          artifactResolver :=
            { artifactConfigurationKey := "AK"
              configurationResolver := ⟨[⟨"AK", "test-*"⟩]⟩
              moduleConfigurationKey := "MK"
              interestingFileDetector := fun _ => .ok true
              additionalHelpMessage := "" }
          cache := ⟨"/cache"⟩
          bom := [] }
        ⟨"/layers/application"⟩).events := by
  have h := contribute_purge_only_after_capture
    { cacheHit := false
      execRes := some "exit status 1"
      env := fun _ => none
      fs := ⟨fun _ => some []⟩
      stat := fun _ => .found false
      copyFileRes := fun _ _ => none
      copyDirRes := fun _ _ => none
      sbomRes := none
      mavenJARListing := fun _ => .ok []
      readDirRes := .ok ["src"]
      removeRes := fun _ => none
      openRes := fun _ => none
      extractRes := none }
    { applicationPath := "/workspace"
      artifactResolver :=
        { artifactConfigurationKey := "AK"
          configurationResolver := ⟨[⟨"AK", "test-*"⟩]⟩
          moduleConfigurationKey := "MK"
          interestingFileDetector := fun _ => .ok true
          additionalHelpMessage := "" }
      cache := ⟨"/cache"⟩
      bom := [] }
    ⟨"/layers/application"⟩
  have hb := h.1 ("error running build\n" ++ "exit status 1") rfl
    (h.2.1 "exit status 1" rfl)
  exact ⟨hb.1, hb.2 "/workspace/src"⟩

theorem contributeAfterLayer_ok_bom (w : World) (a : Application)
    (layer : Layer) (evs0 : List Event) (l : Layer)
    (h : (contributeAfterLayer w a layer evs0).result = .ok l) :
    ∃ d, w.mavenJARListing a.cache.path = .ok d ∧
      (contributeAfterLayer w a layer evs0).bom =
        a.bom ++ [⟨"build-dependencies",
          [("dependencies", MetaV.deps d), ("layer", MetaV.str "cache")],
          true, false⟩] := by
  cases hs : w.sbomRes with
  | some e => simp [contributeAfterLayer, hs] at h
  | none =>
      cases hM : w.mavenJARListing a.cache.path with
      | error e => simp [contributeAfterLayer, hs, Cache.AsBOMEntry, hM] at h
      | ok d =>
          refine ⟨d, rfl, ?_⟩
          simp only [contributeAfterLayer, hs, Cache.AsBOMEntry, hM]
          cases hrd : w.readDirRes with
          | error e => simp [metaSet, Cache.Name]
          | ok cs =>
              simp only []
              cases hpu : purgeChildren w a.applicationPath cs with
              | mk r evsP => cases r <;> simp [metaSet, Cache.Name]

/-- C9: every successful `Contribute` run appends exactly one entry to
the BOM ledger: name `build-dependencies`, metadata holding the
dependency listing of the cache path plus a `layer` key equal to the
cache layer name `cache`, build flag `true` and launch flag `false`. -/
theorem contribute_success_appends_one_bom_entry (w : World)
    (a : Application) (layer l : Layer)
    (h : (Application.Contribute w a layer).result = .ok l) :
    ∃ d, w.mavenJARListing a.cache.path = .ok d ∧
      (Application.Contribute w a layer).bom =
        a.bom ++ [⟨"build-dependencies",
          [("dependencies", MetaV.deps d), ("layer", MetaV.str "cache")],
          true, false⟩] := by
  unfold Application.Contribute at h ⊢
  by_cases hhit : w.cacheHit
  · rw [if_pos hhit] at h ⊢
    exact contributeAfterLayer_ok_bom w a layer [] l h
  · rw [if_neg hhit] at h ⊢
    cases hcb : contributeCallback w a layer with
    | mk r evs =>
        rw [hcb] at h
        cases r with
        | error e => simp at h
        | ok l2 => exact contributeAfterLayer_ok_bom w a l2 evs l h

/-- C9 witness: a successful run starting from an empty ledger ends
with the single `build-dependencies` entry carrying the cache path's
dependency listing, the `layer: cache` tag, build `true` and launch
`false`. -/
theorem contribute_success_appends_one_bom_entry_witness :
    (Application.Contribute
      { cacheHit := true
        execRes := none
        env := fun _ => none
        fs := ⟨fun _ => some []⟩
        stat := fun _ => .found false
        copyFileRes := fun _ _ => none
        copyDirRes := fun _ _ => none
        sbomRes := none
        mavenJARListing := fun _ => .ok ["dep-1.jar"]
        readDirRes := .ok []
        removeRes := fun _ => none
        openRes := fun _ => none
        extractRes := none }
      { applicationPath := "/workspace"
        artifactResolver :=
          { artifactConfigurationKey := "AK"
            configurationResolver := ⟨[⟨"AK", "test-*"⟩]⟩
            moduleConfigurationKey := "MK"
            interestingFileDetector := fun _ => .ok true
            additionalHelpMessage := "" }
        cache := ⟨"/cache"⟩
        bom := [] }
      ⟨"/layers/application"⟩).bom =
      [] ++ [⟨"build-dependencies",
        [("dependencies", MetaV.deps ["dep-1.jar"]),
          ("layer", MetaV.str "cache")], true, false⟩] := by
  obtain ⟨d, hd, hbom⟩ := contribute_success_appends_one_bom_entry
    { cacheHit := true
      execRes := none
      env := fun _ => none
      fs := ⟨fun _ => some []⟩
      stat := fun _ => .found false
      copyFileRes := fun _ _ => none
      copyDirRes := fun _ _ => none
      sbomRes := none
      mavenJARListing := fun _ => .ok ["dep-1.jar"]
      readDirRes := .ok []
      removeRes := fun _ => none
      openRes := fun _ => none
      extractRes := none }
    { applicationPath := "/workspace"
      artifactResolver :=
        { artifactConfigurationKey := "AK"
          configurationResolver := ⟨[⟨"AK", "test-*"⟩]⟩
          moduleConfigurationKey := "MK"
          interestingFileDetector := fun _ => .ok true
          additionalHelpMessage := "" }
      cache := ⟨"/cache"⟩
      bom := [] }
    ⟨"/layers/application"⟩ ⟨"/layers/application"⟩ rfl
  obtain rfl := (Except.ok.inj hd).symm
  exact hbom

end Libbs
